import Mathlib

/-!
Verification of the GOFPID pipeline (pygofpid/gofpid.py).

This file gives a shallow embedding of the class GOFPID with its fit and
predict methods.  Frames and masks are grids of natural numbers; the
Python parameter dicts are records whose Option fields model key
presence; the OpenCV primitives that live outside the repository
(blur filters, morphological operators, background subtractors) are kept
abstract in an interpretation record, so every theorem below holds for
every semantics of those primitives.  A second, heap-based model at the
end of the definitions captures the in-place mutation of the
configuration dicts performed by fit, including the aliasing through
Python's shared mutable default arguments.
-/

/-- Frames are rectangular grids of pixel values (ndarray of int). -/
abbrev Frame := List (List Nat)

/-- Masks are single-channel grids, 0 meaning background. -/
abbrev Mask := List (List Nat)

/-- Structuring elements for mathematical morphology. -/
abbrev Kernel := List (List Nat)

/-- The spatial blur filters that can occupy the key fun of the blur
dict: cv.GaussianBlur or cv.blur. -/
inductive BlurFn
| gaussianBlur
| boxBlur
deriving DecidableEq, Repr

/-- The morphological operators that can occupy the key fun of a
mat_morph entry: cv.erode or cv.dilate. -/
inductive MorphFn
| erode
| dilate
deriving DecidableEq, Repr

/-- The two background subtraction methods the pipeline can construct. -/
inductive SubKind
| MOG2
| KNN
deriving DecidableEq, Repr

/-- cv.BORDER_DEFAULT. -/
def BORDER_DEFAULT : Nat := 4

/-- cv.getStructuringElement(cv.MORPH_RECT, (5, 5)): an all-ones
5 by 5 rectangle. -/
def rect5 : Kernel := List.replicate 5 (List.replicate 5 1)

/-- The blur parameter dict; each Option field models the presence of
the corresponding key.  funKey stands for the Python key named fun,
which Lean reserves. -/
structure BlurDict where
  funKey : Option BlurFn
  ksize : Option (Nat × Nat)
  borderType : Option Nat
deriving DecidableEq, Repr

/-- One mat_morph entry dict, with keys fun and kernel. -/
structure MorphDict where
  funKey : Option MorphFn
  kernel : Option Kernel
deriving DecidableEq, Repr

/-- Python truthiness of a blur dict value: a dict is truthy iff it has
at least one key. -/
def blurTruthyD (d : BlurDict) : Bool :=
  d.funKey.isSome || d.ksize.isSome || d.borderType.isSome

/-- Truthiness of the blur attribute as tested by if self.blur
(None and the empty dict are falsy). -/
def blurTruthy : Option BlurDict → Bool
| none => false
| some d => blurTruthyD d

/-- Interpretation of the OpenCV primitives the pipeline calls but does
not define: the background subtractor constructors and apply method
(over an abstract model state σ), the blur filters, and the
morphological operators.  Option arguments reflect that the code passes
dict.get results, which may be missing. -/
structure Interp (σ : Type) where
  initSub : SubKind → σ
  subApply : σ → Frame → Mask × σ
  blurApply : BlurFn → Frame → Option (Nat × Nat) → Option Nat → Frame
  morphApply : MorphFn → Mask → Option Kernel → Mask

/-- The constructor arguments of GOFPID: blur, frg_detect, mat_morph. -/
structure Config where
  blur : Option BlurDict
  frg_detect : String
  mat_morph : Option (List MorphDict)
deriving DecidableEq, Repr

/-- The observable state of a GOFPID instance: the three configuration
attributes set by init, the bound background subtractor
(None models the attribute not existing, so that reading it raises),
and the last computed motion mask (likewise). -/
structure PState (σ : Type) where
  blur : Option BlurDict
  frg_detect : String
  mat_morph : Option (List MorphDict)
  frgDetectMth : Option σ
  motion_mask_ : Option Mask
deriving DecidableEq, Repr

/-- GOFPID.init: store the three parameters; nothing else exists yet. -/
def pinit (σ : Type) (cfg : Config) : PState σ :=
  ⟨cfg.blur, cfg.frg_detect, cfg.mat_morph, none, none⟩

/-- Errors fit can raise (the three ValueError sites). -/
inductive ConfigErr
| blurNoFun
| unknownFrg
| morphNoFun
deriving DecidableEq, Repr

/-- Errors predict can raise: calling None when the blur dict lacks fun
(TypeError), reading the absent attribute frg_detect_mth
(AttributeError), and calling None when a mat_morph entry lacks fun
(TypeError). -/
inductive PredictErr
| blurFunNone
| noSubtractor
| morphFunNone
deriving DecidableEq, Repr

/-- The blur block of fit: if self.blur is truthy, raise when the key
fun is missing, else insert the default ksize (3, 3) and the default
borderType when those keys are missing.  On the raise nothing has been
inserted yet. -/
def fitBlur : Option BlurDict → Option BlurDict × Option ConfigErr
| none => (none, none)
| some d =>
  if blurTruthyD d then
    match d.funKey with
    | none => (some d, some ConfigErr.blurNoFun)
    | some f =>
      (some ⟨some f, some (d.ksize.getD (3, 3)),
             some (d.borderType.getD BORDER_DEFAULT)⟩, none)
  else (some d, none)

/-- The mat_morph loop of fit: for each entry in order, raise when the
key fun is missing (entries before the raise keep their inserted
kernels, entries after it are untouched), else insert the default 5x5
kernel when the key kernel is missing. -/
def fitMorphs : List MorphDict → List MorphDict × Option ConfigErr
| [] => ([], none)
| d :: ds =>
  match d.funKey with
  | none => (d :: ds, some ConfigErr.morphNoFun)
  | some f =>
    let d1 : MorphDict := ⟨some f, some (d.kernel.getD rect5)⟩
    let r := fitMorphs ds
    (d1 :: r.1, r.2)

/-- The dispatch on self.frg_detect in fit. -/
def subKindOf (s : String) : Option SubKind :=
  if s = "MOG2" then some SubKind.MOG2
  else if s = "KNN" then some SubKind.KNN
  else none

/-- GOFPID.fit.  A raise is modelled by returning the error together
with the state as mutated so far, since a Python exception does not
roll anything back.  The guard if self.mat_morph is truthy is folded
into the loop: iterating an empty or absent list is a no-op either
way. -/
def fit {σ : Type} (I : Interp σ) (s : PState σ) :
    PState σ × Option ConfigErr :=
  let rb := fitBlur s.blur
  match rb.2 with
  | some e => ({ s with blur := rb.1 }, some e)
  | none =>
    let s1 : PState σ := { s with blur := rb.1 }
    match subKindOf s1.frg_detect with
    | none => (s1, some ConfigErr.unknownFrg)
    | some k =>
      let s2 : PState σ := { s1 with frgDetectMth := some (I.initSub k) }
      match s2.mat_morph with
      | none => (s2, none)
      | some l =>
        let rm := fitMorphs l
        ({ s2 with mat_morph := some rm.1 }, rm.2)

/-- The blur block of predict: when self.blur is truthy the code calls
self.blur.get(fun)(X, self.blur.get(ksize), self.blur.get(borderType)),
which raises when the key fun is missing; otherwise the frame passes
through untouched. -/
def denoise {σ : Type} (I : Interp σ) (b : Option BlurDict) (X : Frame) :
    Except PredictErr Frame :=
  match b with
  | none => Except.ok X
  | some d =>
    if blurTruthyD d then
      match d.funKey with
      | none => Except.error PredictErr.blurFunNone
      | some f => Except.ok (I.blurApply f X d.ksize d.borderType)
    else Except.ok X

/-- The mat_morph loop of predict: mask = d.get(fun)(mask, d.get(kernel))
for each entry in order, raising when an entry lacks the key fun. -/
def refineList {σ : Type} (I : Interp σ) :
    List MorphDict → Mask → Except PredictErr Mask
| [], m => Except.ok m
| d :: ds, m =>
  match d.funKey with
  | none => Except.error PredictErr.morphFunNone
  | some f => refineList I ds (I.morphApply f m d.kernel)

/-- np.any on a mask: true iff some pixel is non-zero. -/
def npAny (m : Mask) : Bool :=
  m.any (fun row => row.any (fun p => p != 0))

/-- GOFPID.predict.  Returns the state after the call together with
either the verdict or the error raised; on an error the state reflects
the mutations already performed (the background subtractor update
happens before the mat_morph loop can raise, while motion_mask_ is only
assigned after that loop finishes).  The guard if self.mat_morph is
truthy is folded into the loop as in fit. -/
def predict {σ : Type} (I : Interp σ) (s : PState σ) (X : Frame) :
    PState σ × Except PredictErr Nat :=
  match denoise I s.blur X with
  | Except.error e => (s, Except.error e)
  | Except.ok X1 =>
    match s.frgDetectMth with
    | none => (s, Except.error PredictErr.noSubtractor)
    | some st =>
      let r := I.subApply st X1
      let s1 : PState σ := { s with frgDetectMth := some r.2 }
      match refineList I (s.mat_morph.getD []) r.1 with
      | Except.error e => (s1, Except.error e)
      | Except.ok m =>
        ({ s1 with motion_mask_ := some m },
         Except.ok (if npAny m then 1 else 0))

/-- Feeding a sequence of frames through one pipeline instance,
collecting each call's outcome and the final state. -/
def predictSeq {σ : Type} (I : Interp σ) (s : PState σ) :
    List Frame → List (Except PredictErr Nat) × PState σ
| [] => ([], s)
| X :: Xs =>
  let r := predict I s X
  let rest := predictSeq I r.1 Xs
  (r.2 :: rest.1, rest.2)

/-- A concrete interpretation used to evaluate the model on explicit
inputs: the subtractor state counts the frames seen and echoes the
frame as the mask, blur and morphology are identities. -/
def trivInterp : Interp Nat where
  initSub := fun _ => 0
  subApply := fun st X => (X, st + 1)
  blurApply := fun _ X _ _ => X
  morphApply := fun _ m _ => m

/-- Recognizing an error outcome. -/
def isErr {ε α : Type} : Except ε α → Bool
| Except.error _ => true
| Except.ok _ => false

/-!
Heap model of the configuration dicts.  Python dicts are mutable objects
reached through references; fit inserts missing keys into the very dicts
the caller passed (and, when the caller passed nothing, into the
module-level default objects that every no-argument instance shares).
The heap maps addresses to dict contents; an instance record holds
addresses, not values.  Unallocated addresses read as empty dicts.
-/

/-- An empty blur dict, also what an unallocated address reads as. -/
def emptyBlurDict : BlurDict := ⟨none, none, none⟩

/-- An empty mat_morph entry dict. -/
def emptyMorphDict : MorphDict := ⟨none, none⟩

/-- The heap of configuration dict objects, addressed by Nat. -/
structure Heap where
  blurAt : Nat → BlurDict
  morphAt : Nat → MorphDict

/-- Overwrite the blur dict at one address. -/
def setBlur (h : Heap) (a : Nat) (d : BlurDict) : Heap :=
  { h with blurAt := fun b => if b = a then d else h.blurAt b }

/-- Overwrite the mat_morph entry dict at one address. -/
def setMorph (h : Heap) (a : Nat) (d : MorphDict) : Heap :=
  { h with morphAt := fun b => if b = a then d else h.morphAt b }

/-- A GOFPID instance in the heap model: it holds references to its
configuration dicts rather than copies of them. -/
structure PRef where
  blur : Option Nat
  frg_detect : String
  mat_morph : Option (List Nat)
deriving DecidableEq, Repr

/-- The blur default object of GOFPID.init lives at blur address 0 with
all keys present; the two default mat_morph entry dicts live at morph
addresses 0 and 1.  These objects are allocated once, when the class
definition is evaluated. -/
def defaultHeap : Heap where
  blurAt := fun a =>
    if a = 0 then ⟨some BlurFn.gaussianBlur, some (3, 3), some BORDER_DEFAULT⟩
    else emptyBlurDict
  morphAt := fun a =>
    if a = 0 then ⟨some MorphFn.erode, some rect5⟩
    else if a = 1 then ⟨some MorphFn.dilate, some rect5⟩
    else emptyMorphDict

/-- Constructing a GOFPID instance with no arguments: every such
instance holds the same addresses of the shared default objects. -/
def mkDefaultRef : PRef := ⟨some 0, "MOG2", some [0, 1]⟩

/-- The blur block of fit in the heap model: the defaults are written
back through the caller's reference. -/
def fitRefBlur (h : Heap) (pb : Option Nat) : Heap × Option ConfigErr :=
  match pb with
  | none => (h, none)
  | some a =>
    let d := h.blurAt a
    if blurTruthyD d then
      match d.funKey with
      | none => (h, some ConfigErr.blurNoFun)
      | some f =>
        (setBlur h a ⟨some f, some (d.ksize.getD (3, 3)),
                      some (d.borderType.getD BORDER_DEFAULT)⟩, none)
    else (h, none)

/-- The mat_morph loop of fit in the heap model: each entry dict is
updated in place at its own address, in list order, stopping at the
first entry lacking the key fun. -/
def fitRefMorphs (h : Heap) : List Nat → Heap × Option ConfigErr
| [] => (h, none)
| a :: as =>
  let d := h.morphAt a
  match d.funKey with
  | none => (h, some ConfigErr.morphNoFun)
  | some f =>
    fitRefMorphs (setMorph h a ⟨some f, some (d.kernel.getD rect5)⟩) as

/-- GOFPID.fit in the heap model (the subtractor binding changes no
dict, so only the error of that step is reflected). -/
def fitRef (h : Heap) (p : PRef) : Heap × Option ConfigErr :=
  let rb := fitRefBlur h p.blur
  match rb.2 with
  | some e => (rb.1, some e)
  | none =>
    match subKindOf p.frg_detect with
    | none => (rb.1, some ConfigErr.unknownFrg)
    | some _ => fitRefMorphs rb.1 (p.mat_morph.getD [])

/-- What an instance reads through its blur reference. -/
def readBlur (h : Heap) (p : PRef) : Option BlurDict :=
  p.blur.map h.blurAt

/-- The part of the state predict depends on: the two stage
configurations it reads and the bound subtractor.  predict never reads
frg_detect or the previous motion_mask_. -/
def coreOf {σ : Type} (s : PState σ) :
    Option BlurDict × Option (List MorphDict) × Option σ :=
  (s.blur, s.mat_morph, s.frgDetectMth)

theorem predict_keeps_config {σ : Type} (I : Interp σ) (s : PState σ)
    (X : Frame) :
    (predict I s X).1.blur = s.blur ∧
    (predict I s X).1.frg_detect = s.frg_detect ∧
    (predict I s X).1.mat_morph = s.mat_morph := by
  unfold predict
  split
  · exact ⟨rfl, rfl, rfl⟩
  · split
    · exact ⟨rfl, rfl, rfl⟩
    · dsimp only
      split
      · exact ⟨rfl, rfl, rfl⟩
      · exact ⟨rfl, rfl, rfl⟩

/-- C4: the denoiser stage, modelled as a pure function, does not touch
the caller's frame; when blur is None the frame handed to the
background subtractor is the input frame itself; and no predict call
changes any of the three stage configuration attributes. -/
theorem C4_no_config_mutation {σ : Type} (I : Interp σ) (s t : PState σ)
    (X Y : Frame) (hb : s.blur = none) :
    denoise I s.blur X = Except.ok X ∧
    (predict I t Y).1.blur = t.blur ∧
    (predict I t Y).1.frg_detect = t.frg_detect ∧
    (predict I t Y).1.mat_morph = t.mat_morph := by
  refine ⟨?_, predict_keeps_config I t Y⟩
  rw [hb]; rfl

theorem C4_no_config_mutation_witness :
    denoise trivInterp (none : Option BlurDict) [[1, 2]] =
      Except.ok [[1, 2]] ∧
    (predict trivInterp (pinit Nat ⟨none, "MOG2", none⟩) [[3]]).1.blur =
      (pinit Nat ⟨none, "MOG2", none⟩).blur ∧
    (predict trivInterp (pinit Nat ⟨none, "MOG2", none⟩) [[3]]).1.frg_detect =
      (pinit Nat ⟨none, "MOG2", none⟩).frg_detect ∧
    (predict trivInterp (pinit Nat ⟨none, "MOG2", none⟩) [[3]]).1.mat_morph =
      (pinit Nat ⟨none, "MOG2", none⟩).mat_morph :=
  C4_no_config_mutation trivInterp (pinit Nat ⟨none, "MOG2", none⟩)
    (pinit Nat ⟨none, "MOG2", none⟩) [[1, 2]] [[3]] rfl

/-- C8: two freshly configured pipelines with identical configuration
fed the same frame sequence produce identical outcome sequences. -/
theorem C8_determinism {σ : Type} (I : Interp σ) (cfg : Config)
    (s1 s2 : PState σ) (frames : List Frame)
    (h1 : fit I (pinit σ cfg) = (s1, none))
    (h2 : fit I (pinit σ cfg) = (s2, none)) :
    (predictSeq I s1 frames).1 = (predictSeq I s2 frames).1 := by
  have hs : s1 = s2 := congrArg Prod.fst (h1.symm.trans h2)
  rw [hs]

theorem C8_determinism_witness :
    (predictSeq trivInterp
      (fit trivInterp (pinit Nat ⟨none, "MOG2", none⟩)).1 [[[1]], [[0]]]).1 =
    (predictSeq trivInterp
      (fit trivInterp (pinit Nat ⟨none, "MOG2", none⟩)).1 [[[1]], [[0]]]).1 :=
  C8_determinism trivInterp ⟨none, "MOG2", none⟩ _ _ [[[1]], [[0]]]
    (by decide) (by decide)

/-- C1: whenever predict returns a verdict, the verdict is 1 when some
pixel of the refined mask it stored is non-zero and 0 when every pixel
is zero; npAny is exactly the some-pixel-non-zero test, and an all-zero
mask of any shape fails it, hence always yields verdict 0. -/
theorem C1_decision {σ : Type} (I : Interp σ) (s : PState σ) (X : Frame)
    (y : Nat) (s1 : PState σ) (m : Mask)
    (hp : predict I s X = (s1, Except.ok y))
    (hm : s1.motion_mask_ = some m) :
    (npAny m = true → y = 1) ∧ (npAny m = false → y = 0) ∧
    (npAny m = true ↔ ∃ row ∈ m, ∃ p ∈ row, p ≠ 0) ∧
    (∀ hgt w, npAny (List.replicate hgt (List.replicate w 0)) = false) := by
  have hrel : y = (if npAny m then 1 else 0) := by
    unfold predict at hp
    split at hp
    · simp at hp
    · split at hp
      · simp at hp
      · dsimp only at hp
        split at hp
        · simp at hp
        · rw [Prod.mk.injEq] at hp
          obtain ⟨hs1, hy⟩ := hp
          rw [← hs1] at hm
          simp only [Except.ok.injEq] at hy
          cases hm
          exact hy.symm
  refine ⟨?_, ?_, ?_, ?_⟩
  · intro h; rw [hrel, h]; rfl
  · intro h; rw [hrel, h]; rfl
  · simp [npAny, List.any_eq_true]
  · intro hgt w
    simp [npAny, List.any_eq_true, List.mem_replicate]

theorem C1_decision_witness :
    ((npAny [[0, 3]] = true → 1 = 1) ∧ (npAny [[0, 3]] = false → 1 = 0) ∧
     (npAny [[0, 3]] = true ↔ ∃ row ∈ [[0, 3]], ∃ p ∈ row, p ≠ 0) ∧
     (∀ hgt w, npAny (List.replicate hgt (List.replicate w 0)) = false)) :=
  C1_decision trivInterp
    ⟨none, "MOG2", none, some 0, none⟩ [[0, 3]] 1
    ⟨none, "MOG2", none, some 1, some [[0, 3]]⟩ [[0, 3]]
    rfl rfl

theorem refineList_append {σ : Type} (I : Interp σ) (l1 l2 : List MorphDict)
    (m : Mask) :
    refineList I (l1 ++ l2) m = (refineList I l1 m).bind (refineList I l2) := by
  induction l1 generalizing m with
  | nil => rfl
  | cons d ds ih =>
    cases hd : d.funKey with
    | none => simp [refineList, hd, Except.bind]
    | some f => simp [refineList, hd, ih, Except.bind]

/-- C3: the mask refiner is the sequential composition of the configured
operator entries in the caller's order, each entry's output feeding the
next entry's input; and with the refiner disabled or empty (and the
denoiser disabled), the mask predict stores is exactly the raw
background subtractor output for the frame. -/
theorem C3_refiner {σ : Type} (I : Interp σ) (l1 l2 : List MorphDict)
    (m : Mask) (s : PState σ) (st : σ) (X : Frame)
    (hb : s.blur = none)
    (hmm : s.mat_morph = none ∨ s.mat_morph = some [])
    (hf : s.frgDetectMth = some st) :
    (refineList I (l1 ++ l2) m =
      (refineList I l1 m).bind (refineList I l2)) ∧
    (predict I s X).1.motion_mask_ = some (I.subApply st X).1 ∧
    (predict I s X).2 =
      Except.ok (if npAny (I.subApply st X).1 then 1 else 0) := by
  have hget : s.mat_morph.getD [] = [] := by
    rcases hmm with h | h <;> rw [h] <;> rfl
  refine ⟨refineList_append I l1 l2 m, ?_, ?_⟩ <;>
  · unfold predict
    rw [hb, hf, hget]
    rfl

theorem C3_refiner_witness :
    (refineList trivInterp
        ([⟨some MorphFn.erode, some rect5⟩] ++ [⟨some MorphFn.dilate, none⟩])
        [[1]] =
      (refineList trivInterp [⟨some MorphFn.erode, some rect5⟩] [[1]]).bind
        (refineList trivInterp [⟨some MorphFn.dilate, none⟩])) ∧
    (predict trivInterp ⟨none, "MOG2", none, some 0, none⟩ [[7]]).1.motion_mask_
      = some (trivInterp.subApply 0 [[7]]).1 ∧
    (predict trivInterp ⟨none, "MOG2", none, some 0, none⟩ [[7]]).2 =
      Except.ok (if npAny (trivInterp.subApply 0 [[7]]).1 then 1 else 0) :=
  C3_refiner trivInterp [⟨some MorphFn.erode, some rect5⟩]
    [⟨some MorphFn.dilate, none⟩] [[1]]
    ⟨none, "MOG2", none, some 0, none⟩ 0 [[7]] rfl (Or.inl rfl) rfl

theorem predict_err_of_noSub {σ : Type} (I : Interp σ) (s : PState σ)
    (X : Frame) (hf : s.frgDetectMth = none) :
    isErr (predict I s X).2 = true ∧ (predict I s X).1 = s := by
  unfold predict
  cases hd : denoise I s.blur X with
  | error e => exact ⟨rfl, rfl⟩
  | ok X1 => rw [hf]; exact ⟨rfl, rfl⟩

theorem predict_err_of_blurBad {σ : Type} (I : Interp σ) (s : PState σ)
    (X : Frame) (d : BlurDict) (hb : s.blur = some d)
    (ht : blurTruthyD d = true) (hfn : d.funKey = none) :
    predict I s X = (s, Except.error PredictErr.blurFunNone) := by
  have hd : denoise I s.blur X = Except.error PredictErr.blurFunNone := by
    rw [hb]; simp [denoise, ht, hfn]
  unfold predict
  rw [hd]

theorem refineList_err_of_bad {σ : Type} (I : Interp σ)
    (l : List MorphDict) :
    ∀ m, (∃ d ∈ l, d.funKey = none) →
      refineList I l m = Except.error PredictErr.morphFunNone := by
  induction l with
  | nil => intro m h; simp at h
  | cons d ds ih =>
    intro m h
    cases hd : d.funKey with
    | none => simp [refineList, hd]
    | some f =>
      have hbad : ∃ d0 ∈ ds, d0.funKey = none := by
        obtain ⟨d0, hmem, h0⟩ := h
        rcases List.mem_cons.mp hmem with rfl | hm
        · rw [hd] at h0; cases h0
        · exact ⟨d0, hm, h0⟩
      simp only [refineList, hd]
      exact ih _ hbad

theorem fitMorphs_err_bad (l : List MorphDict) (e : ConfigErr)
    (h : (fitMorphs l).2 = some e) :
    ∃ d ∈ (fitMorphs l).1, d.funKey = none := by
  induction l with
  | nil => simp [fitMorphs] at h
  | cons d ds ih =>
    cases hd : d.funKey with
    | none =>
      refine ⟨d, ?_, hd⟩
      simp only [fitMorphs, hd]
      exact List.mem_cons_self d ds
    | some f =>
      simp only [fitMorphs, hd] at h ⊢
      obtain ⟨d0, hm, h0⟩ := ih h
      exact ⟨d0, List.mem_cons_of_mem _ hm, h0⟩

theorem fitMorphs_err_eq (l : List MorphDict) (e : ConfigErr)
    (h : (fitMorphs l).2 = some e) : e = ConfigErr.morphNoFun := by
  induction l with
  | nil => simp [fitMorphs] at h
  | cons d ds ih =>
    cases hd : d.funKey with
    | none =>
      simp only [fitMorphs, hd] at h
      exact (Option.some_inj.mp h).symm
    | some f =>
      simp only [fitMorphs, hd] at h
      exact ih h

theorem fitBlur_err_inv (b : Option BlurDict) (e : ConfigErr)
    (h : (fitBlur b).2 = some e) :
    e = ConfigErr.blurNoFun ∧ (fitBlur b).1 = b ∧
    ∃ d, b = some d ∧ blurTruthyD d = true ∧ d.funKey = none := by
  cases b with
  | none => simp [fitBlur] at h
  | some d =>
    cases ht : blurTruthyD d with
    | true =>
      cases hd : d.funKey with
      | none =>
        have hfit : fitBlur (some d) = (some d, some ConfigErr.blurNoFun) := by
          simp [fitBlur, ht, hd]
        rw [hfit] at h
        exact ⟨(Option.some_inj.mp h).symm, by rw [hfit], d, rfl, ht, hd⟩
      | some f =>
        have hfit : (fitBlur (some d)).2 = none := by simp [fitBlur, ht, hd]
        rw [hfit] at h; cases h
    | false =>
      have hfit : (fitBlur (some d)).2 = none := by simp [fitBlur, ht]
      rw [hfit] at h; cases h

theorem fit_err_inv {σ : Type} (I : Interp σ) (s s1 : PState σ)
    (e : ConfigErr) (hf : fit I s = (s1, some e)) :
    (s1 = { s with blur := (fitBlur s.blur).1 } ∧
     (fitBlur s.blur).2 = some e)
    ∨ (e = ConfigErr.unknownFrg ∧
       s1 = { s with blur := (fitBlur s.blur).1 } ∧
       (fitBlur s.blur).2 = none ∧ subKindOf s.frg_detect = none)
    ∨ (∃ k l, subKindOf s.frg_detect = some k ∧ s.mat_morph = some l ∧
       (fitMorphs l).2 = some e ∧
       s1 = { s with blur := (fitBlur s.blur).1,
                     frgDetectMth := some (I.initSub k),
                     mat_morph := some (fitMorphs l).1 }) := by
  unfold fit at hf
  dsimp only at hf
  split at hf
  case _ e1 heq =>
    left
    rw [Prod.mk.injEq] at hf
    obtain ⟨h1, h2⟩ := hf
    rw [Option.some_inj] at h2
    exact ⟨h1.symm, by rw [heq, h2]⟩
  case _ heq =>
    split at hf
    case _ hk =>
      right; left
      rw [Prod.mk.injEq] at hf
      obtain ⟨h1, h2⟩ := hf
      rw [Option.some_inj] at h2
      exact ⟨h2.symm, h1.symm, heq, hk⟩
    case _ k hk =>
      right; right
      split at hf
      case _ hmm => simp at hf
      case _ l hmm =>
        rw [Prod.mk.injEq] at hf
        obtain ⟨h1, h2⟩ := hf
        exact ⟨k, l, hk, hmm, h2, h1.symm⟩

theorem predict_err_of_morphBad {σ : Type} (I : Interp σ) (s : PState σ)
    (X : Frame) (l : List MorphDict) (hm : s.mat_morph = some l)
    (hbad : ∃ d ∈ l, d.funKey = none) :
    isErr (predict I s X).2 = true ∧
    (predict I s X).1.motion_mask_ = s.motion_mask_ := by
  unfold predict
  cases hd : denoise I s.blur X with
  | error e => exact ⟨rfl, rfl⟩
  | ok X1 =>
    cases hfg : s.frgDetectMth with
    | none => exact ⟨rfl, rfl⟩
    | some st =>
      dsimp only
      have hr : refineList I (s.mat_morph.getD [])
          (I.subApply st X1).1 = Except.error PredictErr.morphFunNone := by
        rw [hm]; exact refineList_err_of_bad I l _ hbad
      rw [hr]
      exact ⟨rfl, rfl⟩

theorem failedFit_unusable {σ : Type} (I : Interp σ) (cfg : Config)
    (s1 : PState σ) (e : ConfigErr) (X : Frame)
    (hf : fit I (pinit σ cfg) = (s1, some e)) :
    isErr (predict I s1 X).2 = true ∧
    (predict I s1 X).1.motion_mask_ = none ∧
    ((e = ConfigErr.blurNoFun ∨ e = ConfigErr.unknownFrg) →
      s1.frgDetectMth = none) ∧
    (e = ConfigErr.morphNoFun → s1.frgDetectMth ≠ none) := by
  rcases fit_err_inv I _ s1 e hf with
    ⟨hs1, hberr⟩ | ⟨he, hs1, _, _⟩ | ⟨k, l, hk, hl, hm2, hs1⟩
  · obtain ⟨heb, hunch, d, hbd, ht, hfn⟩ := fitBlur_err_inv _ _ hberr
    have hblur : s1.blur = some d := by
      rw [hs1]
      show (fitBlur (pinit σ cfg).blur).1 = some d
      rw [hunch]
      exact hbd
    have hp := predict_err_of_blurBad I s1 X d hblur ht hfn
    rw [hp]
    refine ⟨rfl, by rw [hs1]; rfl, fun _ => by rw [hs1]; rfl, fun hmo => ?_⟩
    rw [heb] at hmo; cases hmo
  · have hfr : s1.frgDetectMth = none := by rw [hs1]; rfl
    obtain ⟨h1, h2⟩ := predict_err_of_noSub I s1 X hfr
    refine ⟨h1, by rw [h2, hs1]; rfl, fun _ => hfr, fun hmo => ?_⟩
    rw [he] at hmo; cases hmo
  · have hbad := fitMorphs_err_bad l e hm2
    have hmm : s1.mat_morph = some (fitMorphs l).1 := by rw [hs1]
    obtain ⟨h1, h2⟩ := predict_err_of_morphBad I s1 X _ hmm hbad
    have hmo : s1.motion_mask_ = none := by rw [hs1]; rfl
    have hfr : s1.frgDetectMth = some (I.initSub k) := by rw [hs1]
    have hq := fitMorphs_err_eq l e hm2
    subst hq
    refine ⟨h1, by rw [h2, hmo], fun hor => ?_, fun _ => by rw [hfr]; simp⟩
    rcases hor with he | he <;> cases he

/-- A configuration whose single mat_morph entry lacks the key fun. -/
def cfgC2 : Config := ⟨none, "MOG2", some [⟨none, none⟩]⟩

/-- C2 counterexample: on a fresh pipeline whose mat_morph entry lacks
the key fun, fit raises, yet the background subtractor has already been
bound, so the pipeline is not left in the Unconfigured state; moreover
the subsequent failing predict still runs the subtractor, advancing the
background model (here from state 0 to state 1) before raising. -/
theorem C2_counterexample :
    (fit trivInterp (pinit Nat cfgC2)).2 = some ConfigErr.morphNoFun ∧
    (fit trivInterp (pinit Nat cfgC2)).1.frgDetectMth = some 0 ∧
    (predict trivInterp
      (fit trivInterp (pinit Nat cfgC2)).1 [[5]]).1.frgDetectMth = some 1 := by
  refine ⟨?_, ?_, ?_⟩ <;> decide

/-- C2 (amended): when fit raises because blur lacks the key fun or
because frg_detect is unknown, no subtractor is bound, so the pipeline
is indeed left Unconfigured; when fit raises on a mat_morph entry the
subtractor has already been bound, so the pipeline is not Unconfigured;
in every case a subsequent predict fails without producing a verdict
and exposes no motion mask. -/
theorem C2_amended_unusable {σ : Type} (I : Interp σ) (cfg : Config)
    (s1 : PState σ) (e : ConfigErr) (X : Frame)
    (hf : fit I (pinit σ cfg) = (s1, some e)) :
    ((e = ConfigErr.blurNoFun ∨ e = ConfigErr.unknownFrg) →
      s1.frgDetectMth = none) ∧
    (e = ConfigErr.morphNoFun → s1.frgDetectMth ≠ none) ∧
    isErr (predict I s1 X).2 = true ∧
    (predict I s1 X).1.motion_mask_ = none := by
  obtain ⟨h1, h2, h3, h4⟩ := failedFit_unusable I cfg s1 e X hf
  exact ⟨h3, h4, h1, h2⟩

theorem C2_amended_unusable_witness :
    ((ConfigErr.unknownFrg = ConfigErr.blurNoFun ∨
      ConfigErr.unknownFrg = ConfigErr.unknownFrg) →
      (fit trivInterp (pinit Nat ⟨none, "FOO", none⟩)).1.frgDetectMth =
        none) ∧
    (ConfigErr.unknownFrg = ConfigErr.morphNoFun →
      (fit trivInterp (pinit Nat ⟨none, "FOO", none⟩)).1.frgDetectMth ≠
        none) ∧
    isErr (predict trivInterp
      (fit trivInterp (pinit Nat ⟨none, "FOO", none⟩)).1 [[1]]).2 = true ∧
    (predict trivInterp
      (fit trivInterp (pinit Nat ⟨none, "FOO", none⟩)).1
        [[1]]).1.motion_mask_ = none :=
  C2_amended_unusable trivInterp ⟨none, "FOO", none⟩ _
    ConfigErr.unknownFrg [[1]] (by decide)

/-- C7: calling predict on a pipeline that never completed a successful
fit fails, returns no verdict, and exposes no motion mask: the first
conjunct covers a pipeline of arbitrary configuration (valid or not) on
which fit was never called, the second a pipeline whose fit call
raised. -/
theorem C7_predict_before_fit {σ : Type} (I : Interp σ) (cfg : Config)
    (X : Frame) :
    (isErr (predict I (pinit σ cfg) X).2 = true ∧
     (predict I (pinit σ cfg) X).1.motion_mask_ = none) ∧
    (∀ (s1 : PState σ) (e : ConfigErr),
      fit I (pinit σ cfg) = (s1, some e) →
      isErr (predict I s1 X).2 = true ∧
      (predict I s1 X).1.motion_mask_ = none) := by
  have h0 := predict_err_of_noSub I (pinit σ cfg) X rfl
  refine ⟨⟨h0.1, by rw [h0.2]; rfl⟩, fun s1 e hf => ?_⟩
  have h1 := failedFit_unusable I cfg s1 e X hf
  exact ⟨h1.1, h1.2.1⟩

/-- The constructor defaults of GOFPID as a configuration value. -/
def cfgDefault : Config :=
  ⟨some ⟨some BlurFn.gaussianBlur, some (3, 3), some BORDER_DEFAULT⟩,
   "MOG2",
   some [⟨some MorphFn.erode, some rect5⟩,
         ⟨some MorphFn.dilate, some rect5⟩]⟩

theorem C7_predict_before_fit_witness :
    (isErr (predict trivInterp (pinit Nat cfgDefault) [[2]]).2 = true ∧
     (predict trivInterp (pinit Nat cfgDefault) [[2]]).1.motion_mask_ =
       none) ∧
    (isErr (predict trivInterp
      (fit trivInterp
        (pinit Nat ⟨some ⟨none, some (3, 3), none⟩, "MOG2", none⟩)).1
          [[2]]).2 = true ∧
     (predict trivInterp
       (fit trivInterp
         (pinit Nat ⟨some ⟨none, some (3, 3), none⟩, "MOG2", none⟩)).1
           [[2]]).1.motion_mask_ = none) :=
  ⟨(C7_predict_before_fit trivInterp cfgDefault [[2]]).1,
   (C7_predict_before_fit trivInterp
      ⟨some ⟨none, some (3, 3), none⟩, "MOG2", none⟩ [[2]]).2
     (fit trivInterp
       (pinit Nat ⟨some ⟨none, some (3, 3), none⟩, "MOG2", none⟩)).1
     ConfigErr.blurNoFun (by decide)⟩

theorem fit_binds_sub {σ : Type} (I : Interp σ) (s : PState σ)
    (b1 : Option BlurDict) (k : SubKind)
    (hb : fitBlur s.blur = (b1, none))
    (hk : subKindOf s.frg_detect = some k) :
    (fit I s).1.frgDetectMth = some (I.initSub k) := by
  unfold fit
  rw [hb]
  dsimp only
  rw [hk]
  dsimp only
  cases s.mat_morph <;> rfl

theorem fit_frg_error {σ : Type} (I : Interp σ) (s : PState σ)
    (b1 : Option BlurDict)
    (hb : fitBlur s.blur = (b1, none))
    (hk : subKindOf s.frg_detect = none) :
    fit I s = ({ s with blur := b1 }, some ConfigErr.unknownFrg) := by
  unfold fit
  rw [hb]
  dsimp only
  rw [hk]

/-- C5: fit accepts exactly the strings MOG2 and KNN for frg_detect,
binding the corresponding freshly constructed subtractor (whatever the
later mat_morph validation does); any other value raises, leaves the
subtractor of a fresh pipeline unbound, and so predict keeps failing. -/
theorem C5_frg_variants {σ : Type} (I : Interp σ) (s : PState σ)
    (b1 : Option BlurDict) (hb : fitBlur s.blur = (b1, none)) :
    (s.frg_detect = "MOG2" →
      (fit I s).1.frgDetectMth = some (I.initSub SubKind.MOG2)) ∧
    (s.frg_detect = "KNN" →
      (fit I s).1.frgDetectMth = some (I.initSub SubKind.KNN)) ∧
    (subKindOf s.frg_detect = none →
      (fit I s).2 = some ConfigErr.unknownFrg ∧
      (fit I s).1.frgDetectMth = s.frgDetectMth ∧
      (s.frgDetectMth = none →
        ∀ X, isErr (predict I (fit I s).1 X).2 = true)) ∧
    (∀ str, (subKindOf str).isSome = true ↔
      (str = "MOG2" ∨ str = "KNN")) := by
  refine ⟨?_, ?_, ?_, ?_⟩
  · intro h
    refine fit_binds_sub I s b1 SubKind.MOG2 hb ?_
    rw [h]; rfl
  · intro h
    refine fit_binds_sub I s b1 SubKind.KNN hb ?_
    rw [h]; rfl
  · intro hk
    have hfe := fit_frg_error I s b1 hb hk
    rw [hfe]
    refine ⟨rfl, rfl, fun hnone X => ?_⟩
    exact (predict_err_of_noSub I { s with blur := b1 } X hnone).1
  · intro str
    unfold subKindOf
    by_cases h1 : str = "MOG2"
    · simp [h1]
    · by_cases h2 : str = "KNN" <;> simp [h1, h2]

theorem C5_frg_variants_witness :
    (("KNN" : String) = "MOG2" →
      (fit trivInterp (pinit Nat ⟨none, "KNN", none⟩)).1.frgDetectMth =
        some (trivInterp.initSub SubKind.MOG2)) ∧
    (("KNN" : String) = "KNN" →
      (fit trivInterp (pinit Nat ⟨none, "KNN", none⟩)).1.frgDetectMth =
        some (trivInterp.initSub SubKind.KNN)) ∧
    (subKindOf (pinit Nat ⟨none, "KNN", none⟩).frg_detect = none →
      (fit trivInterp (pinit Nat ⟨none, "KNN", none⟩)).2 =
        some ConfigErr.unknownFrg ∧
      (fit trivInterp (pinit Nat ⟨none, "KNN", none⟩)).1.frgDetectMth =
        (pinit Nat ⟨none, "KNN", none⟩).frgDetectMth ∧
      ((pinit Nat ⟨none, "KNN", none⟩).frgDetectMth = none →
        ∀ X, isErr (predict trivInterp
          (fit trivInterp (pinit Nat ⟨none, "KNN", none⟩)).1 X).2 =
            true)) ∧
    (∀ str, (subKindOf str).isSome = true ↔
      (str = "MOG2" ∨ str = "KNN")) :=
  C5_frg_variants trivInterp (pinit Nat ⟨none, "KNN", none⟩) none rfl

theorem fitMorphs_err_of_bad (l : List MorphDict)
    (hbad : ∃ d ∈ l, d.funKey = none) :
    (fitMorphs l).2 = some ConfigErr.morphNoFun := by
  induction l with
  | nil => simp at hbad
  | cons d ds ih =>
    cases hd : d.funKey with
    | none => simp [fitMorphs, hd]
    | some f =>
      have hbad2 : ∃ d0 ∈ ds, d0.funKey = none := by
        obtain ⟨d0, hmem, h0⟩ := hbad
        rcases List.mem_cons.mp hmem with rfl | hm
        · rw [hd] at h0; cases h0
        · exact ⟨d0, hm, h0⟩
      simp only [fitMorphs, hd]
      exact ih hbad2

/-- A configuration whose blur is the empty dict: not None, yet falsy
for Python, so fit skips the whole blur validation. -/
def cfgC6 : Config := ⟨some emptyBlurDict, "MOG2", none⟩

/-- C6 counterexample: blur is a non-None dict whose key fun is absent,
yet fit raises no configuration error, because the code tests the
truthiness of self.blur and the empty dict is falsy. -/
theorem C6_counterexample :
    cfgC6.blur ≠ none ∧
    (cfgC6.blur.getD emptyBlurDict).funKey = none ∧
    (fit trivInterp (pinit Nat cfgC6)).2 = none := by
  refine ⟨?_, ?_, ?_⟩ <;> decide

/-- C6 (amended): for every truthy (that is, non-empty) blur dict, fit
raises when the key fun is absent and otherwise fills an unset ksize
with (3, 3) and an unset borderType with BORDER_DEFAULT; for every
mat_morph list, fit raises when some entry lacks the key fun, and an
entry with a missing kernel is fitted exactly as if it had been
configured with the explicit 5x5 rectangle, so all subsequent
processing agrees with the explicit form. -/
theorem C6_defaults {σ : Type} (I : Interp σ) (d : BlurDict) (f : BlurFn)
    (l : List MorphDict) (g : MorphFn) (ds : List MorphDict) (m : Mask)
    (ht : blurTruthyD d = true) :
    (d.funKey = none →
      (fitBlur (some d)).2 = some ConfigErr.blurNoFun) ∧
    (d.funKey = some f →
      fitBlur (some d) =
        (some ⟨some f, some (d.ksize.getD (3, 3)),
               some (d.borderType.getD BORDER_DEFAULT)⟩, none)) ∧
    ((∃ d0 ∈ l, d0.funKey = none) →
      (fitMorphs l).2 = some ConfigErr.morphNoFun) ∧
    (fitMorphs (⟨some g, none⟩ :: ds) =
      fitMorphs (⟨some g, some rect5⟩ :: ds)) ∧
    (refineList I (fitMorphs (⟨some g, none⟩ :: ds)).1 m =
      refineList I (fitMorphs (⟨some g, some rect5⟩ :: ds)).1 m) := by
  refine ⟨?_, ?_, fitMorphs_err_of_bad l, rfl, rfl⟩
  · intro hfn
    simp [fitBlur, ht, hfn]
  · intro hf
    simp [fitBlur, ht, hf]

theorem C6_defaults_witness :
    ((⟨some BlurFn.boxBlur, none, none⟩ : BlurDict).funKey = none →
      (fitBlur (some ⟨some BlurFn.boxBlur, none, none⟩)).2 =
        some ConfigErr.blurNoFun) ∧
    ((⟨some BlurFn.boxBlur, none, none⟩ : BlurDict).funKey =
        some BlurFn.boxBlur →
      fitBlur (some ⟨some BlurFn.boxBlur, none, none⟩) =
        (some ⟨some BlurFn.boxBlur,
               some ((none : Option (Nat × Nat)).getD (3, 3)),
               some ((none : Option Nat).getD BORDER_DEFAULT)⟩, none)) ∧
    ((∃ d0 ∈ [(⟨none, none⟩ : MorphDict)], d0.funKey = none) →
      (fitMorphs [(⟨none, none⟩ : MorphDict)]).2 =
        some ConfigErr.morphNoFun) ∧
    (fitMorphs [(⟨some MorphFn.erode, none⟩ : MorphDict)] =
      fitMorphs [(⟨some MorphFn.erode, some rect5⟩ : MorphDict)]) ∧
    (refineList trivInterp
        (fitMorphs [(⟨some MorphFn.erode, none⟩ : MorphDict)]).1 [[1]] =
      refineList trivInterp
        (fitMorphs [(⟨some MorphFn.erode, some rect5⟩ : MorphDict)]).1
        [[1]]) :=
  C6_defaults trivInterp ⟨some BlurFn.boxBlur, none, none⟩ BlurFn.boxBlur
    [⟨none, none⟩] MorphFn.erode [] [[1]] (by decide)

theorem fitBlur_idem (b : Option BlurDict) (h : (fitBlur b).2 = none) :
    fitBlur (fitBlur b).1 = ((fitBlur b).1, none) := by
  cases b with
  | none => rfl
  | some d =>
    cases ht : blurTruthyD d with
    | false =>
      have h1 : fitBlur (some d) = (some d, none) := by simp [fitBlur, ht]
      rw [h1]
      exact h1
    | true =>
      cases hd : d.funKey with
      | none => simp [fitBlur, ht, hd] at h
      | some f =>
        have h1 : fitBlur (some d) =
            (some ⟨some f, some (d.ksize.getD (3, 3)),
                   some (d.borderType.getD BORDER_DEFAULT)⟩, none) := by
          simp [fitBlur, ht, hd]
        rw [h1]
        simp [fitBlur, blurTruthyD]

theorem fitMorphs_idem (l : List MorphDict) (h : (fitMorphs l).2 = none) :
    fitMorphs (fitMorphs l).1 = ((fitMorphs l).1, none) := by
  induction l with
  | nil => rfl
  | cons d ds ih =>
    cases hd : d.funKey with
    | none => simp [fitMorphs, hd] at h
    | some f =>
      simp only [fitMorphs, hd] at h ⊢
      simp only [Option.getD_some]
      rw [ih h]

theorem fit_ok_inv {σ : Type} (I : Interp σ) (s s1 : PState σ)
    (hf : fit I s = (s1, none)) :
    ∃ k, (fitBlur s.blur).2 = none ∧ subKindOf s.frg_detect = some k ∧
    s1.blur = (fitBlur s.blur).1 ∧ s1.frg_detect = s.frg_detect ∧
    s1.frgDetectMth = some (I.initSub k) ∧
    s1.motion_mask_ = s.motion_mask_ ∧
    ((s.mat_morph = none ∧ s1.mat_morph = none) ∨
     (∃ l, s.mat_morph = some l ∧ (fitMorphs l).2 = none ∧
       s1.mat_morph = some (fitMorphs l).1)) := by
  unfold fit at hf
  dsimp only at hf
  split at hf
  case _ e heq => simp at hf
  case _ heq =>
    split at hf
    case _ hk => simp at hf
    case _ k hk =>
      refine ⟨k, heq, hk, ?_⟩
      split at hf
      case _ hmm =>
        rw [Prod.mk.injEq] at hf
        obtain ⟨h1, _⟩ := hf
        rw [← h1]
        exact ⟨rfl, rfl, rfl, rfl, Or.inl ⟨hmm, hmm⟩⟩
      case _ l hmm =>
        rw [Prod.mk.injEq] at hf
        obtain ⟨h1, h2⟩ := hf
        rw [← h1]
        exact ⟨rfl, rfl, rfl, rfl, Or.inr ⟨l, hmm, h2, rfl⟩⟩

theorem predictSeq_keeps_config {σ : Type} (I : Interp σ) (s : PState σ)
    (Xs : List Frame) :
    (predictSeq I s Xs).2.blur = s.blur ∧
    (predictSeq I s Xs).2.frg_detect = s.frg_detect ∧
    (predictSeq I s Xs).2.mat_morph = s.mat_morph := by
  induction Xs generalizing s with
  | nil => exact ⟨rfl, rfl, rfl⟩
  | cons X Xs ih =>
    obtain ⟨h1, h2, h3⟩ := predict_keeps_config I s X
    obtain ⟨g1, g2, g3⟩ := ih (predict I s X).1
    exact ⟨g1.trans h1, g2.trans h2, g3.trans h3⟩

theorem predict_core_congr {σ : Type} (I : Interp σ) (s t : PState σ)
    (X : Frame) (h : coreOf s = coreOf t) :
    (predict I s X).2 = (predict I t X).2 ∧
    coreOf (predict I s X).1 = coreOf (predict I t X).1 := by
  have hb : s.blur = t.blur := congrArg (fun c => c.1) h
  have hm : s.mat_morph = t.mat_morph := congrArg (fun c => c.2.1) h
  have hf : s.frgDetectMth = t.frgDetectMth := congrArg (fun c => c.2.2) h
  unfold predict
  rw [hb, hm, hf]
  cases hdn : denoise I t.blur X with
  | error e => exact ⟨rfl, h⟩
  | ok X1 =>
    cases hfg : t.frgDetectMth with
    | none => exact ⟨rfl, h⟩
    | some st =>
      dsimp only
      cases hr : refineList I (t.mat_morph.getD [])
          (I.subApply st X1).1 with
      | error e => exact ⟨rfl, rfl⟩
      | ok m => exact ⟨rfl, rfl⟩

theorem predictSeq_core_congr {σ : Type} (I : Interp σ) (s t : PState σ)
    (Xs : List Frame) (h : coreOf s = coreOf t) :
    (predictSeq I s Xs).1 = (predictSeq I t Xs).1 := by
  induction Xs generalizing s t with
  | nil => rfl
  | cons X Xs ih =>
    obtain ⟨h2, hcore⟩ := predict_core_congr I s t X h
    simp only [predictSeq]
    rw [h2, ih _ _ hcore]

/-- C10: calling fit again on a pipeline that was successfully
configured and then used succeeds, rebinds a freshly constructed
background subtractor identical to the one the first fit bound
(discarding everything the background model learned), and the refitted
pipeline yields exactly the outcome sequence of the originally fitted
pipeline on any further frames: an effective reset. -/
theorem C10_refit_resets {σ : Type} (I : Interp σ) (cfg : Config)
    (s1 sN s2 : PState σ) (rs : List (Except PredictErr Nat))
    (frames Xs : List Frame) (e2 : Option ConfigErr)
    (h1 : fit I (pinit σ cfg) = (s1, none))
    (hseq : predictSeq I s1 frames = (rs, sN))
    (h2 : fit I sN = (s2, e2)) :
    e2 = none ∧ s2.frgDetectMth = s1.frgDetectMth ∧
    (predictSeq I s2 Xs).1 = (predictSeq I s1 Xs).1 := by
  obtain ⟨k, hb0, hk0, hblur1, hfrg1, hbind1, hmo1, hmm1⟩ :=
    fit_ok_inv I (pinit σ cfg) s1 h1
  have hNb : sN.blur = s1.blur := by
    have hq := (predictSeq_keeps_config I s1 frames).1
    rw [hseq] at hq
    exact hq
  have hNf : sN.frg_detect = s1.frg_detect := by
    have hq := (predictSeq_keeps_config I s1 frames).2.1
    rw [hseq] at hq
    exact hq
  have hNm : sN.mat_morph = s1.mat_morph := by
    have hq := (predictSeq_keeps_config I s1 frames).2.2
    rw [hseq] at hq
    exact hq
  have hbN : fitBlur sN.blur = (sN.blur, none) := by
    have hsn : sN.blur = (fitBlur (pinit σ cfg).blur).1 := hNb.trans hblur1
    rw [hsn]
    exact fitBlur_idem (pinit σ cfg).blur hb0
  have hkN : subKindOf sN.frg_detect = some k := by
    have hsn : sN.frg_detect = (pinit σ cfg).frg_detect := hNf.trans hfrg1
    rw [hsn]
    exact hk0
  unfold fit at h2
  dsimp only at h2
  rw [hbN] at h2
  dsimp only at h2
  rw [hkN] at h2
  dsimp only at h2
  rcases hmm1 with ⟨hc0, hs1m⟩ | ⟨l, hc0, hlok, hs1m⟩
  · have hNmn : sN.mat_morph = none := hNm.trans hs1m
    rw [hNmn] at h2
    dsimp only at h2
    rw [Prod.mk.injEq] at h2
    obtain ⟨hs2, he2⟩ := h2
    refine ⟨he2.symm, ?_, ?_⟩
    · rw [← hs2]
      exact hbind1.symm
    · apply predictSeq_core_congr
      rw [← hs2]
      show (sN.blur, (none : Option (List MorphDict)), some (I.initSub k)) =
        (s1.blur, s1.mat_morph, s1.frgDetectMth)
      rw [hNb, hbind1, hs1m]
  · have hNms : sN.mat_morph = some (fitMorphs l).1 := hNm.trans hs1m
    rw [hNms] at h2
    dsimp only at h2
    rw [fitMorphs_idem l hlok] at h2
    dsimp only at h2
    rw [Prod.mk.injEq] at h2
    obtain ⟨hs2, he2⟩ := h2
    refine ⟨he2.symm, ?_, ?_⟩
    · rw [← hs2]
      exact hbind1.symm
    · apply predictSeq_core_congr
      rw [← hs2]
      show (sN.blur, some (fitMorphs l).1, some (I.initSub k)) =
        (s1.blur, s1.mat_morph, s1.frgDetectMth)
      rw [hNb, hbind1, hs1m]

theorem fitRefMorphs_blurAt (as : List Nat) : ∀ hh : Heap,
    (fitRefMorphs hh as).1.blurAt = hh.blurAt := by
  induction as with
  | nil => intro hh; rfl
  | cons a0 as ih =>
    intro hh
    cases hd : (hh.morphAt a0).funKey with
    | none => simp [fitRefMorphs, hd]
    | some f =>
      simp only [fitRefMorphs, hd]
      exact ih _

theorem fitRefMorphs_kernel_mono (as : List Nat) : ∀ (hh : Heap) (a : Nat),
    ((hh.morphAt a).kernel).isSome = true →
    (((fitRefMorphs hh as).1.morphAt a).kernel).isSome = true := by
  induction as with
  | nil => intro hh a hk; exact hk
  | cons a0 as ih =>
    intro hh a hk
    cases hd : (hh.morphAt a0).funKey with
    | none => simpa [fitRefMorphs, hd] using hk
    | some f =>
      simp only [fitRefMorphs, hd]
      apply ih
      show (((setMorph hh a0
        ⟨some f, some ((hh.morphAt a0).kernel.getD rect5)⟩).morphAt
          a).kernel).isSome = true
      unfold setMorph
      dsimp only
      by_cases hab : a = a0
      · simp [hab]
      · simp [hab, hk]

theorem fitRefMorphs_ok_kernels (as : List Nat) : ∀ hh : Heap,
    (fitRefMorphs hh as).2 = none →
    ∀ a ∈ as, (((fitRefMorphs hh as).1.morphAt a).kernel).isSome = true := by
  induction as with
  | nil => intro hh _ a ha; simp at ha
  | cons a0 as ih =>
    intro hh hok a ha
    cases hd : (hh.morphAt a0).funKey with
    | none => simp [fitRefMorphs, hd] at hok
    | some f =>
      simp only [fitRefMorphs, hd] at hok ⊢
      rcases List.mem_cons.mp ha with rfl | hm
      · apply fitRefMorphs_kernel_mono
        show (((setMorph hh a
          ⟨some f, some ((hh.morphAt a).kernel.getD rect5)⟩).morphAt
            a).kernel).isSome = true
        unfold setMorph
        dsimp only
        simp
      · exact ih _ hok a hm

/-- A heap holding one blur dict that has only the key fun and one
mat_morph entry dict that has only the key fun, both at address 0,
shared by every instance whose references point there. -/
def heapC9 : Heap where
  blurAt := fun a =>
    if a = 0 then ⟨some BlurFn.gaussianBlur, none, none⟩ else emptyBlurDict
  morphAt := fun a =>
    if a = 0 then ⟨some MorphFn.erode, none⟩ else emptyMorphDict

/-- An instance whose references point at the address-0 dicts. -/
def pC9 : PRef := ⟨some 0, "MOG2", some [0]⟩

/-- C9: fit writes the defaults into the configuration dict objects
themselves, through the caller's references: after a successful fit the
blur dict at the caller's address keeps its fun and gains the default
ksize and borderType, every referenced mat_morph entry dict has gained
a kernel, an aliasing instance reads the very same updated dict, and
any two instances constructed without arguments hold identical
references to the shared default objects. -/
theorem C9_inplace_defaults (h h1 : Heap) (p q : PRef) (a : Nat)
    (f : BlurFn)
    (hfit : fitRef h p = (h1, none))
    (ha : p.blur = some a)
    (ht : blurTruthyD (h.blurAt a) = true)
    (hfk : (h.blurAt a).funKey = some f)
    (halias : q.blur = p.blur) :
    h1.blurAt a = ⟨some f, some ((h.blurAt a).ksize.getD (3, 3)),
                   some ((h.blurAt a).borderType.getD BORDER_DEFAULT)⟩ ∧
    (∀ b ∈ p.mat_morph.getD [], ((h1.morphAt b).kernel).isSome = true) ∧
    readBlur h1 q = some (h1.blurAt a) ∧
    (∀ p1 p2 : PRef, p1 = mkDefaultRef → p2 = mkDefaultRef →
      p1.blur = p2.blur ∧ p1.mat_morph = p2.mat_morph) := by
  have hrb : fitRefBlur h p.blur =
      (setBlur h a ⟨some f, some ((h.blurAt a).ksize.getD (3, 3)),
                    some ((h.blurAt a).borderType.getD BORDER_DEFAULT)⟩,
       none) := by
    rw [ha]
    simp [fitRefBlur, ht, hfk]
  unfold fitRef at hfit
  rw [hrb] at hfit
  dsimp only at hfit
  cases hk : subKindOf p.frg_detect with
  | none => rw [hk] at hfit; simp at hfit
  | some k =>
    rw [hk] at hfit
    dsimp only at hfit
    have hh1 : h1 = (fitRefMorphs
        (setBlur h a ⟨some f, some ((h.blurAt a).ksize.getD (3, 3)),
                      some ((h.blurAt a).borderType.getD BORDER_DEFAULT)⟩)
        (p.mat_morph.getD [])).1 :=
      (congrArg Prod.fst hfit).symm
    have hok : (fitRefMorphs
        (setBlur h a ⟨some f, some ((h.blurAt a).ksize.getD (3, 3)),
                      some ((h.blurAt a).borderType.getD BORDER_DEFAULT)⟩)
        (p.mat_morph.getD [])).2 = none :=
      congrArg Prod.snd hfit
    refine ⟨?_, ?_, ?_, ?_⟩
    · rw [hh1, fitRefMorphs_blurAt]
      unfold setBlur
      dsimp only
      simp
    · intro b hb
      rw [hh1]
      exact fitRefMorphs_ok_kernels _ _ hok b hb
    · unfold readBlur
      rw [halias, ha]
      rfl
    · intro p1 p2 h1eq h2eq
      rw [h1eq, h2eq]
      exact ⟨rfl, rfl⟩

theorem C9_inplace_defaults_witness :
    (fitRef heapC9 pC9).1.blurAt 0 =
      ⟨some BlurFn.gaussianBlur,
       some (((heapC9.blurAt 0).ksize).getD (3, 3)),
       some (((heapC9.blurAt 0).borderType).getD BORDER_DEFAULT)⟩ ∧
    (∀ b ∈ pC9.mat_morph.getD [],
      (((fitRef heapC9 pC9).1.morphAt b).kernel).isSome = true) ∧
    readBlur (fitRef heapC9 pC9).1 pC9 =
      some ((fitRef heapC9 pC9).1.blurAt 0) ∧
    (∀ p1 p2 : PRef, p1 = mkDefaultRef → p2 = mkDefaultRef →
      p1.blur = p2.blur ∧ p1.mat_morph = p2.mat_morph) :=
  C9_inplace_defaults heapC9 (fitRef heapC9 pC9).1 pC9 pC9 0
    BlurFn.gaussianBlur rfl rfl rfl rfl rfl

/-- A valid configuration exercising the mat_morph defaulting path. -/
def cfg10 : Config := ⟨none, "MOG2", some [⟨some MorphFn.erode, none⟩]⟩

theorem C10_refit_resets_witness :
    (fit trivInterp
      (predictSeq trivInterp (fit trivInterp (pinit Nat cfg10)).1
        [[[1]]]).2).2 = none ∧
    (fit trivInterp
      (predictSeq trivInterp (fit trivInterp (pinit Nat cfg10)).1
        [[[1]]]).2).1.frgDetectMth =
      (fit trivInterp (pinit Nat cfg10)).1.frgDetectMth ∧
    (predictSeq trivInterp
      (fit trivInterp
        (predictSeq trivInterp (fit trivInterp (pinit Nat cfg10)).1
          [[[1]]]).2).1 [[[2]]]).1 =
    (predictSeq trivInterp (fit trivInterp (pinit Nat cfg10)).1
      [[[2]]]).1 :=
  C10_refit_resets trivInterp cfg10
    (fit trivInterp (pinit Nat cfg10)).1
    (predictSeq trivInterp (fit trivInterp (pinit Nat cfg10)).1
      [[[1]]]).2
    (fit trivInterp
      (predictSeq trivInterp (fit trivInterp (pinit Nat cfg10)).1
        [[[1]]]).2).1
    (predictSeq trivInterp (fit trivInterp (pinit Nat cfg10)).1
      [[[1]]]).1
    [[[1]]] [[[2]]]
    (fit trivInterp
      (predictSeq trivInterp (fit trivInterp (pinit Nat cfg10)).1
        [[[1]]]).2).2
    (by decide) rfl rfl
